import Mathlib

/-!
Shallow embedding of `src/main.py` (countdown-pro-api): a read-only FastAPI
service over the `chart_weeks` / `chart_entries` tables, with endpoints
`/health`, `/charts/weeks`, `/charts/week` and `/charts/resolve`.

The database is modelled as in-memory lists of rows; SQL `ORDER BY` is
modelled by a sort (`orderBy`), `LIMIT`/`OFFSET` by `take`/`drop`, Postgres
`date` values by calendar dates together with their civil day number
(`Date.toDays`, which is how Postgres compares and subtracts dates), and the
`%s::date` cast of a query parameter by `parseDate`.  Handlers return
`Except Err _`, where `Err` carries the HTTP status code and the `detail`
string, mirroring FastAPI's `HTTPException`.  The `SUPABASE_DB_URL`
environment variable read by `_get_conn` is modelled as an `Option String`
argument; Python truthiness of optional parameters (`if not target_date`,
`year and month and week_in_month`) is modelled by `truthyStr` / `truthyInt`.
-/

deriving instance DecidableEq for Except

namespace CountdownPro

/-- A calendar date (Python `datetime.date` / Postgres `date`). -/
structure Date where
  year : Int
  month : Nat
  day : Nat
  deriving Repr, DecidableEq

/-- Civil day number of a date (days since 1970-01-01, Hinnant's
`days_from_civil`).  Postgres date subtraction `d1 - d2` is exactly
`d1.toDays - d2.toDays`, and date comparison is comparison of day numbers. -/
def Date.toDays (dt : Date) : Int :=
  let y : Int := if dt.month ≤ 2 then dt.year - 1 else dt.year
  let era : Int := Int.fdiv y 400
  let yoe : Int := y - era * 400
  let mp : Nat := (dt.month + 9) % 12
  let doy : Int := (((153 * mp + 2) / 5 + dt.day : Nat) : Int) - 1
  let doe : Int := yoe * 365 + Int.fdiv yoe 4 - Int.fdiv yoe 100 + doy
  era * 146097 + doe - 719468

/-- Left-pad a string with zeros to the given width. -/
def padZeros (width : Nat) (s : String) : String :=
  if s.length < width then String.mk (List.replicate (width - s.length) '0') ++ s else s

/-- Python `date.isoformat()`: `YYYY-MM-DD` with zero padding. -/
def Date.isoformat (dt : Date) : String :=
  padZeros 4 (toString dt.year) ++ "-" ++ padZeros 2 (toString dt.month) ++ "-" ++
    padZeros 2 (toString dt.day)

def isLeapYear (y : Nat) : Bool :=
  (y % 4 == 0 && y % 100 != 0) || (y % 400 == 0)

def daysInMonth (y : Nat) (m : Nat) : Nat :=
  if m == 2 then (if isLeapYear y then 29 else 28)
  else if m == 4 || m == 6 || m == 9 || m == 11 then 30
  else 31

/-- Interpret a list of characters as a decimal number; `none` if empty or
any character is not a digit. -/
def digitsToNat (cs : List Char) : Option Nat :=
  if cs ≠ [] ∧ cs.all Char.isDigit then
    some (cs.foldl (fun n c => 10 * n + (c.toNat - 48)) 0)
  else none

/-- Split a character list on the dash character. -/
def splitDash : List Char → List (List Char)
  | [] => [[]]
  | c :: rest =>
    let r := splitDash rest
    if c = '-' then [] :: r
    else
      match r with
      | [] => [[c]]
      | g :: gs => (c :: g) :: gs

/-- Model of the Postgres `%s::date` cast on an ISO `YYYY-MM-DD` input:
yields the date when the string is a well-formed calendar date, `none`
(i.e. a database error in the handlers) otherwise. -/
def parseDate (s : String) : Option Date :=
  match splitDash s.toList with
  | [ys, ms, ds] =>
    match digitsToNat ys, digitsToNat ms, digitsToNat ds with
    | some y, some m, some d =>
      if 1 ≤ m ∧ m ≤ 12 ∧ 1 ≤ d ∧ d ≤ daysInMonth y m then some ⟨(y : Int), m, d⟩
      else none
    | _, _, _ => none
  | _ => none

/-- A row of `public.chart_weeks`. -/
structure ChartWeek where
  id : Nat
  year : Int
  week_end_date : Date
  deriving Repr, DecidableEq

/-- A row of `public.chart_entries`. -/
structure ChartEntry where
  chart_week_id : Nat
  position : Int
  artist : String
  song_title : String
  deriving Repr, DecidableEq

/-- The database state: the two tables. -/
structure DB where
  weeks : List ChartWeek
  entries : List ChartEntry
  deriving Repr, DecidableEq

/-- Insert into a sorted list (used to model SQL `ORDER BY`). -/
def insertOrd (le : α → α → Bool) (x : α) : List α → List α
  | [] => [x]
  | y :: ys => if le x y then x :: y :: ys else y :: insertOrd le x ys

/-- Sort a list by the given Boolean comparison (model of SQL `ORDER BY`:
any sorted permutation of the rows; ties are broken arbitrarily in SQL and
by insertion order here). -/
def orderBy (le : α → α → Bool) : List α → List α
  | [] => []
  | x :: xs => insertOrd le x (orderBy le xs)

/-- An HTTP error response (`HTTPException`): status code and detail. -/
structure Err where
  status : Nat
  detail : String
  deriving Repr, DecidableEq

/-- Python truthiness of an optional string (`None` and `""` are falsy). -/
def truthyStr : Option String → Bool
  | none => false
  | some s => s != ""

/-- Python truthiness of an optional int (`None` and `0` are falsy). -/
def truthyInt : Option Int → Bool
  | none => false
  | some n => n != 0

/-- Detail text produced when `_get_conn` raises
`RuntimeError("Missing SUPABASE_DB_URL env var")` and the handler wraps it
as `f"DB error: {e}"`. -/
def dbMissingDetail : String := "DB error: Missing SUPABASE_DB_URL env var"

/-- Detail text produced when the `%s::date` cast fails inside a query and
the handler wraps the driver error as `f"DB error: {e}"` (the driver text is
summarized; only the 500 status and the `DB error` prefix matter). -/
def dateCastDetail (s : String) : String :=
  "DB error: invalid input syntax for type date: " ++ s

/-- Wire form of a chart week (`week_end_date` serialized by `isoformat`). -/
structure WeekJson where
  id : Nat
  year : Int
  week_end_date : String
  deriving Repr, DecidableEq

def weekJson (w : ChartWeek) : WeekJson :=
  ⟨w.id, w.year, w.week_end_date.isoformat⟩

/-- Wire form of a chart entry. -/
structure EntryJson where
  position : Int
  artist : String
  song_title : String
  deriving Repr, DecidableEq

def entryJson (e : ChartEntry) : EntryJson :=
  ⟨e.position, e.artist, e.song_title⟩

/-- Response of `GET /health`. -/
structure HealthResp where
  ok : Bool
  deriving Repr, DecidableEq

/-- `GET /health`: returns `{"ok": True}` without touching `_get_conn`. -/
def health : HealthResp := ⟨true⟩

/-- The query of `list_weeks`:
`select id, year, week_end_date from public.chart_weeks where year = %s
order by week_end_date desc limit %s offset %s`. -/
def listWeeksQuery (weeks : List ChartWeek) (year : Int) (limit offset : Nat) :
    List ChartWeek :=
  ((orderBy (fun a b => decide (b.week_end_date.toDays ≤ a.week_end_date.toDays))
      (weeks.filter (fun w => w.year == year))).drop offset).take limit

/-- `GET /charts/weeks` (`list_weeks`). -/
def list_weeks (env : Option String) (db : DB) (year : Int) (limit offset : Nat) :
    Except Err (List WeekJson) :=
  if truthyStr env then
    .ok ((listWeeksQuery db.weeks year limit offset).map weekJson)
  else
    .error ⟨500, dbMissingDetail⟩

/-- The week lookup of `get_week`:
`select id, year, week_end_date from public.chart_weeks
where week_end_date = %s::date limit 1`. -/
def findWeekByDate (weeks : List ChartWeek) (d : Date) : Option ChartWeek :=
  (weeks.filter (fun w => w.week_end_date.toDays == d.toDays)).head?

/-- The entries query shared by `get_week` and `resolve_chart_week`:
`select position, artist, song_title from public.chart_entries
where chart_week_id = %s order by position asc limit %s`. -/
def entriesQuery (entries : List ChartEntry) (weekId : Nat) (top : Nat) :
    List ChartEntry :=
  (orderBy (fun a b => decide (a.position ≤ b.position))
    (entries.filter (fun e => e.chart_week_id == weekId))).take top

/-- Response of `GET /charts/week`. -/
structure GetWeekResp where
  week : WeekJson
  entries : List EntryJson
  deriving Repr, DecidableEq

/-- `GET /charts/week` (`get_week`).  Note there is no validation of
`week_end_date` before the query: a malformed date string reaches the
`%s::date` cast and surfaces as a 500 `DB error`. -/
def get_week (env : Option String) (db : DB) (week_end_date : String) (top : Nat) :
    Except Err GetWeekResp :=
  if truthyStr env then
    match parseDate week_end_date with
    | none => .error ⟨500, dateCastDetail week_end_date⟩
    | some d =>
      match findWeekByDate db.weeks d with
      | none => .error ⟨404, "Week not found"⟩
      | some w =>
        .ok ⟨weekJson w, (entriesQuery db.entries w.id top).map entryJson⟩
  else .error ⟨500, dbMissingDetail⟩

/-- Mode-A query of `resolve_chart_week`:
`select id, year, week_end_date from public.chart_weeks
order by abs(public.chart_weeks.week_end_date - %s::date) asc limit 1`. -/
def resolveByDate (weeks : List ChartWeek) (t : Date) : Option ChartWeek :=
  (orderBy
    (fun a b =>
      decide ((a.week_end_date.toDays - t.toDays).natAbs ≤
              (b.week_end_date.toDays - t.toDays).natAbs))
    weeks).head?

/-- Mode-B query of `resolve_chart_week`:
`select id, year, week_end_date from public.chart_weeks where year = %s
and extract(month from week_end_date) = %s order by week_end_date asc
offset %s limit 1`, called with offset `week_in_month - 1`. -/
def resolveByWeekInMonth (weeks : List ChartWeek) (y m k : Int) :
    Option ChartWeek :=
  ((orderBy (fun a b => decide (a.week_end_date.toDays ≤ b.week_end_date.toDays))
      (weeks.filter
        (fun w => w.year == y && ((w.week_end_date.month : Int) == m)))).drop
    (k - 1).toNat).head?

/-- The `resolved_from` field of the resolve response. -/
inductive ResolvedFrom where
  | byDate (target_date : String)
  | byWeekInMonth (year month week_in_month : Int)
  deriving Repr, DecidableEq

/-- Response of `GET /charts/resolve`. -/
structure ResolveResp where
  resolved_from : ResolvedFrom
  resolution_note : String
  week : WeekJson
  entries : List EntryJson
  deriving Repr, DecidableEq

/-- The ordinal suffix computed by `resolve_chart_week`:
`suffix = "th"; if week_in_month in (1, 2, 3): suffix = {...}[week_in_month]`. -/
def ordinalSuffix (k : Int) : String :=
  if k == 1 then "st" else if k == 2 then "nd" else if k == 3 then "rd" else "th"

/-- `GET /charts/resolve` (`resolve_chart_week`).  The two selector checks
run before the connection is acquired; mode choice follows Python
truthiness of the raw parameters. -/
def resolve_chart_week (env : Option String) (db : DB) (target_date : Option String)
    (year month week_in_month : Option Int) (top : Nat) : Except Err ResolveResp :=
  if !truthyStr target_date &&
      !(truthyInt year && truthyInt month && truthyInt week_in_month) then
    .error ⟨400, "Provide either target_date=YYYY-MM-DD OR year+month+week_in_month"⟩
  else if truthyStr target_date &&
      (truthyInt year || truthyInt month || truthyInt week_in_month) then
    .error ⟨400, "Use only one mode: target_date OR year+month+week_in_month"⟩
  else if truthyStr env then
    if truthyStr target_date then
      let td := target_date.getD ""
      match parseDate td with
      | none => .error ⟨500, dateCastDetail td⟩
      | some t =>
        match resolveByDate db.weeks t with
        | none => .error ⟨404, "No chart week found for that input"⟩
        | some w =>
          .ok ⟨.byDate td,
            "Closest chart week to " ++ td ++ " (week ending " ++
              w.week_end_date.isoformat ++ ")",
            weekJson w, (entriesQuery db.entries w.id top).map entryJson⟩
    else
      let y := year.getD 0
      let m := month.getD 0
      let k := week_in_month.getD 0
      match resolveByWeekInMonth db.weeks y m k with
      | none => .error ⟨404, "No chart week found for that input"⟩
      | some w =>
        .ok ⟨.byWeekInMonth y m k,
          toString k ++ ordinalSuffix k ++ " chart week of " ++ toString m ++ "/" ++
            toString y ++ " (week ending " ++ w.week_end_date.isoformat ++ ")",
          weekJson w, (entriesQuery db.entries w.id top).map entryJson⟩
  else .error ⟨500, dbMissingDetail⟩

/-- A small concrete database used for witnesses and counterexamples. -/
def demoWeeks : List ChartWeek :=
  [⟨1, 1985, ⟨1985, 3, 2⟩⟩, ⟨2, 1985, ⟨1985, 3, 9⟩⟩, ⟨3, 1985, ⟨1985, 4, 6⟩⟩]

def demoEntries : List ChartEntry :=
  [⟨1, 2, "Artist B", "Song B"⟩, ⟨1, 1, "Artist A", "Song A"⟩,
   ⟨2, 1, "Artist C", "Song C"⟩]

def demoDB : DB := ⟨demoWeeks, demoEntries⟩

/-- The response of `GET /charts/resolve?year=1985&month=3&week_in_month=2`
against `demoDB`. -/
def demoRespB : ResolveResp :=
  ⟨.byWeekInMonth 1985 3 2, "2nd chart week of 3/1985 (week ending 1985-03-09)",
   ⟨2, 1985, "1985-03-09"⟩, [⟨1, "Artist C", "Song C"⟩]⟩

/-- The response of `GET /charts/resolve?target_date=1985-03-05` against
`demoDB`. -/
def demoRespA : ResolveResp :=
  ⟨.byDate "1985-03-05", "Closest chart week to 1985-03-05 (week ending 1985-03-02)",
   ⟨1, 1985, "1985-03-02"⟩,
   [⟨1, "Artist A", "Song A"⟩, ⟨2, "Artist B", "Song B"⟩]⟩

/-! ### Lemmas about the `ORDER BY` model -/

theorem insertOrd_perm (le : α → α → Bool) (x : α) (l : List α) :
    (insertOrd le x l).Perm (x :: l) := by
  induction l with
  | nil => exact List.Perm.refl _
  | cons y ys ih =>
    simp only [insertOrd]
    by_cases h : le x y
    · rw [if_pos h]
    · rw [if_neg h]
      exact (ih.cons y).trans (List.Perm.swap x y ys)

theorem orderBy_perm (le : α → α → Bool) (l : List α) : (orderBy le l).Perm l := by
  induction l with
  | nil => exact List.Perm.refl _
  | cons x xs ih => exact (insertOrd_perm le x _).trans (ih.cons x)

theorem pairwise_insertOrd {le : α → α → Bool}
    (hto : ∀ a b, le a b = true ∨ le b a = true)
    (htr : ∀ a b c, le a b = true → le b c = true → le a c = true)
    (x : α) (l : List α) (h : l.Pairwise (fun a b => le a b = true)) :
    (insertOrd le x l).Pairwise (fun a b => le a b = true) := by
  induction l with
  | nil => simp [insertOrd]
  | cons y ys ih =>
    rcases List.pairwise_cons.mp h with ⟨hy, hys⟩
    simp only [insertOrd]
    by_cases hxy : le x y
    · rw [if_pos hxy]
      refine List.pairwise_cons.mpr ⟨?_, h⟩
      intro z hz
      rcases List.mem_cons.mp hz with rfl | hz
      · exact hxy
      · exact htr x y z hxy (hy z hz)
    · rw [if_neg hxy]
      refine List.pairwise_cons.mpr ⟨?_, ih hys⟩
      intro z hz
      have hz' : z ∈ x :: ys := (insertOrd_perm le x ys).subset hz
      rcases List.mem_cons.mp hz' with rfl | hz'
      · rcases hto z y with h1 | h1
        · exact absurd h1 hxy
        · exact h1
      · exact hy z hz'

theorem pairwise_orderBy {le : α → α → Bool}
    (hto : ∀ a b, le a b = true ∨ le b a = true)
    (htr : ∀ a b c, le a b = true → le b c = true → le a c = true)
    (l : List α) : (orderBy le l).Pairwise (fun a b => le a b = true) := by
  induction l with
  | nil => simp [orderBy]
  | cons x xs ih => exact pairwise_insertOrd hto htr x _ ih

theorem orderBy_head_min {le : α → α → Bool}
    (hto : ∀ a b, le a b = true ∨ le b a = true)
    (htr : ∀ a b c, le a b = true → le b c = true → le a c = true)
    (l : List α) (w : α) (hw : (orderBy le l).head? = some w) :
    w ∈ l ∧ ∀ x ∈ l, le w x = true := by
  have hp := pairwise_orderBy hto htr l
  have hperm := orderBy_perm le l
  cases hL : orderBy le l with
  | nil => rw [hL] at hw; cases hw
  | cons a t =>
    rw [hL] at hw
    rw [List.head?_cons] at hw
    obtain rfl : a = w := Option.some.inj hw
    rw [hL] at hp hperm
    refine ⟨hperm.subset (List.mem_cons_self a t), ?_⟩
    intro x hx
    have hx' : x ∈ a :: t := hperm.symm.subset hx
    rcases List.mem_cons.mp hx' with rfl | hx'
    · rcases hto x x with h1 | h1 <;> exact h1
    · exact (List.pairwise_cons.mp hp).1 x hx'

theorem orderBy_head_none {le : α → α → Bool} (l : List α)
    (h : (orderBy le l).head? = none) : l = [] := by
  have hperm := orderBy_perm le l
  cases hL : orderBy le l with
  | nil => rw [hL] at hperm; exact hperm.symm.eq_nil
  | cons a t => rw [hL] at h; cases h

theorem decideLe_total {β : Type} [LinearOrder β] (f : α → β) :
    ∀ a b, (decide (f a ≤ f b) = true) ∨ (decide (f b ≤ f a) = true) := by
  intro a b
  rcases le_total (f a) (f b) with h | h
  · exact Or.inl (decide_eq_true h)
  · exact Or.inr (decide_eq_true h)

theorem decideLe_trans {β : Type} [LinearOrder β] (f : α → β) :
    ∀ a b c, decide (f a ≤ f b) = true → decide (f b ≤ f c) = true →
      decide (f a ≤ f c) = true := by
  intro a b c h1 h2
  exact decide_eq_true (le_trans (of_decide_eq_true h1) (of_decide_eq_true h2))

/-! ### Unfolding lemmas for the resolve handler's two modes -/

theorem truthyStr_none : truthyStr none = false := rfl

theorem truthyStr_some (s : String) : truthyStr (some s) = (s != "") := rfl

theorem truthyInt_none : truthyInt none = false := rfl

theorem truthyInt_some (n : Int) : truthyInt (some n) = (n != 0) := rfl

theorem resolve_modeA_eq (env : Option String) (db : DB) (s : String) (top : Nat)
    (henv : truthyStr env = true) (hs : s ≠ "") :
    resolve_chart_week env db (some s) none none none top =
      match parseDate s with
      | none => .error ⟨500, dateCastDetail s⟩
      | some t =>
        match resolveByDate db.weeks t with
        | none => .error ⟨404, "No chart week found for that input"⟩
        | some w =>
          .ok ⟨.byDate s,
            "Closest chart week to " ++ s ++ " (week ending " ++
              w.week_end_date.isoformat ++ ")",
            weekJson w, (entriesQuery db.entries w.id top).map entryJson⟩ := by
  simp [resolve_chart_week, truthyStr_some, truthyInt_none, henv, hs]

theorem resolve_modeB_eq (env : Option String) (db : DB) (y m k : Int) (top : Nat)
    (henv : truthyStr env = true) (hy : y ≠ 0) (hm : m ≠ 0) (hk : k ≠ 0) :
    resolve_chart_week env db none (some y) (some m) (some k) top =
      match resolveByWeekInMonth db.weeks y m k with
      | none => .error ⟨404, "No chart week found for that input"⟩
      | some w =>
        .ok ⟨.byWeekInMonth y m k,
          toString k ++ ordinalSuffix k ++ " chart week of " ++ toString m ++ "/" ++
            toString y ++ " (week ending " ++ w.week_end_date.isoformat ++ ")",
          weekJson w, (entriesQuery db.entries w.id top).map entryJson⟩ := by
  simp [resolve_chart_week, truthyStr_none, truthyInt_some, henv, hy, hm, hk]

theorem resolve_modeA_eqGen (env : Option String) (db : DB) (td : Option String)
    (oy om ow : Option Int) (top : Nat)
    (henv : truthyStr env = true) (htd : truthyStr td = true)
    (hy : truthyInt oy = false) (hm : truthyInt om = false)
    (hk : truthyInt ow = false) :
    resolve_chart_week env db td oy om ow top =
      match parseDate (td.getD "") with
      | none => .error ⟨500, dateCastDetail (td.getD "")⟩
      | some t =>
        match resolveByDate db.weeks t with
        | none => .error ⟨404, "No chart week found for that input"⟩
        | some w =>
          .ok ⟨.byDate (td.getD ""),
            "Closest chart week to " ++ td.getD "" ++ " (week ending " ++
              w.week_end_date.isoformat ++ ")",
            weekJson w, (entriesQuery db.entries w.id top).map entryJson⟩ := by
  simp [resolve_chart_week, henv, htd, hy, hm, hk]

theorem resolve_modeB_eqGen (env : Option String) (db : DB) (td : Option String)
    (oy om ow : Option Int) (top : Nat)
    (henv : truthyStr env = true) (htd : truthyStr td = false)
    (hy : truthyInt oy = true) (hm : truthyInt om = true)
    (hk : truthyInt ow = true) :
    resolve_chart_week env db td oy om ow top =
      match resolveByWeekInMonth db.weeks (oy.getD 0) (om.getD 0) (ow.getD 0) with
      | none => .error ⟨404, "No chart week found for that input"⟩
      | some w =>
        .ok ⟨.byWeekInMonth (oy.getD 0) (om.getD 0) (ow.getD 0),
          toString (ow.getD 0) ++ ordinalSuffix (ow.getD 0) ++ " chart week of " ++
            toString (om.getD 0) ++ "/" ++ toString (oy.getD 0) ++
            " (week ending " ++ w.week_end_date.isoformat ++ ")",
          weekJson w, (entriesQuery db.entries w.id top).map entryJson⟩ := by
  simp [resolve_chart_week, henv, htd, hy, hm, hk]

theorem get_week_eq (env : Option String) (db : DB) (d : String) (top : Nat)
    (henv : truthyStr env = true) :
    get_week env db d top =
      match parseDate d with
      | none => .error ⟨500, dateCastDetail d⟩
      | some t =>
        match findWeekByDate db.weeks t with
        | none => .error ⟨404, "Week not found"⟩
        | some w => .ok ⟨weekJson w, (entriesQuery db.entries w.id top).map entryJson⟩ := by
  simp [get_week, henv]

/-! ### Claim C3 -/

/-- Claim C3 as stated is refuted: `target_date=""` supplied together with all
three Mode-B fields is not rejected with a 400; Python truthiness treats the
empty string as absent, so the request is resolved in Mode B and succeeds. -/
theorem resolve_mixed_empty_target_accepted :
    resolve_chart_week (some "postgres://demo") demoDB (some "") (some 1985) (some 3)
        (some 1) 5 =
      .ok ⟨.byWeekInMonth 1985 3 1, "1st chart week of 3/1985 (week ending 1985-03-02)",
        ⟨1, 1985, "1985-03-02"⟩,
        [⟨1, "Artist A", "Song A"⟩, ⟨2, "Artist B", "Song B"⟩]⟩ := by decide

/-- Claim C3 (amended): with presence judged by Python truthiness (`""` and
`0` count as absent), supplying neither a truthy `target_date` nor all three
truthy Mode-B fields, or supplying a truthy `target_date` together with any
truthy Mode-B field, fails with a 400 error carrying one of the two selector
messages — for every environment and database state, in particular even when
`SUPABASE_DB_URL` is unset, which shows the failure precedes any query. -/
theorem resolve_selector_validation (env : Option String) (db : DB)
    (td : Option String) (y m k : Option Int) (top : Nat)
    (h : (truthyStr td = false ∧
           ¬(truthyInt y = true ∧ truthyInt m = true ∧ truthyInt k = true)) ∨
         (truthyStr td = true ∧
           (truthyInt y = true ∨ truthyInt m = true ∨ truthyInt k = true))) :
    (resolve_chart_week env db td y m k top =
      .error ⟨400, "Provide either target_date=YYYY-MM-DD OR year+month+week_in_month"⟩) ∨
    (resolve_chart_week env db td y m k top =
      .error ⟨400, "Use only one mode: target_date OR year+month+week_in_month"⟩) := by
  rcases h with ⟨h1, h2⟩ | ⟨h1, h2⟩
  · left
    have hfalse : (truthyInt y && truthyInt m && truthyInt k) = false := by
      cases hty : truthyInt y <;> cases htm : truthyInt m <;> cases htk : truthyInt k <;>
        simp_all
    simp [resolve_chart_week, h1, hfalse]
  · right
    have htrue : (truthyInt y || truthyInt m || truthyInt k) = true := by
      rcases h2 with h2 | h2 | h2 <;> simp [h2]
    simp [resolve_chart_week, h1, htrue]

/-- Witness for `resolve_selector_validation`: a truthy `target_date` together
with a truthy `year` is rejected with one of the two 400 messages. -/
theorem resolve_selector_validation_witness :
    (resolve_chart_week (some "postgres://demo") demoDB (some "1985-03-05") (some 1985)
        none none 5 =
      .error ⟨400, "Provide either target_date=YYYY-MM-DD OR year+month+week_in_month"⟩) ∨
    (resolve_chart_week (some "postgres://demo") demoDB (some "1985-03-05") (some 1985)
        none none 5 =
      .error ⟨400, "Use only one mode: target_date OR year+month+week_in_month"⟩) :=
  resolve_selector_validation (some "postgres://demo") demoDB (some "1985-03-05")
    (some 1985) none none 5 (Or.inr ⟨by decide, Or.inl (by decide)⟩)

/-! ### Claim C10 -/

/-- Claim C10: mode selection is decided by string truthiness, not presence:
`target_date=""` together with all three (truthy) Mode-B fields is resolved in
Mode B exactly as if `target_date` were absent, and is never rejected with a
400; `target_date=""` alone yields the neither-mode 400 error. -/
theorem empty_target_date_truthiness (env : Option String) (db : DB)
    (y m k : Option Int) (top : Nat)
    (hy : truthyInt y = true) (hm : truthyInt m = true) (hk : truthyInt k = true) :
    resolve_chart_week env db (some "") y m k top =
      resolve_chart_week env db none y m k top ∧
    (∀ d : String, resolve_chart_week env db (some "") y m k top ≠ .error ⟨400, d⟩) ∧
    resolve_chart_week env db (some "") none none none top =
      .error ⟨400, "Provide either target_date=YYYY-MM-DD OR year+month+week_in_month"⟩ := by
  refine ⟨?_, ?_, ?_⟩
  · simp [resolve_chart_week, truthyStr_some, truthyStr_none, hy, hm, hk]
  · intro d
    simp only [resolve_chart_week, truthyStr_some, bne_self_eq_false, Bool.not_false,
      hy, hm, hk, Bool.and_self, Bool.not_true, Bool.and_false, Bool.false_and,
      Bool.and_true, if_false]
    cases henv : truthyStr env
    · simp [dbMissingDetail]
    · simp only [if_true]
      cases hr : resolveByWeekInMonth db.weeks (y.getD 0) (m.getD 0) (k.getD 0) <;> simp
  · simp [resolve_chart_week, truthyStr_some, truthyInt_none]

/-- Witness for `empty_target_date_truthiness` at concrete truthy Mode-B
parameters. -/
theorem empty_target_date_truthiness_witness :
    resolve_chart_week (some "postgres://demo") demoDB (some "") (some 1985) (some 3)
        (some 2) 5 =
      resolve_chart_week (some "postgres://demo") demoDB none (some 1985) (some 3)
        (some 2) 5 ∧
    (∀ d : String,
      resolve_chart_week (some "postgres://demo") demoDB (some "") (some 1985) (some 3)
          (some 2) 5 ≠ .error ⟨400, d⟩) ∧
    resolve_chart_week (some "postgres://demo") demoDB (some "") none none none 5 =
      .error ⟨400, "Provide either target_date=YYYY-MM-DD OR year+month+week_in_month"⟩ :=
  empty_target_date_truthiness (some "postgres://demo") demoDB (some 1985) (some 3)
    (some 2) 5 (by decide) (by decide) (by decide)

/-! ### Claim C9 -/

/-- Claim C9: with `SUPABASE_DB_URL` unset, every otherwise-valid request to
the three database-backed endpoints fails with a 500 whose detail contains
`Missing SUPABASE_DB_URL env var` (it equals `"DB error: " ++` that text),
while `/health` — which never calls the connection factory — still returns
`ok = true`. -/
theorem missing_db_url_500 (db : DB) (y : Int) (limit offset : Nat) (d : String)
    (top : Nat) (td : Option String) (oy om ok : Option Int)
    (hmode : (truthyStr td = true ∧ truthyInt oy = false ∧ truthyInt om = false ∧
               truthyInt ok = false) ∨
             (truthyStr td = false ∧ truthyInt oy = true ∧ truthyInt om = true ∧
               truthyInt ok = true)) :
    list_weeks none db y limit offset = .error ⟨500, dbMissingDetail⟩ ∧
    get_week none db d top = .error ⟨500, dbMissingDetail⟩ ∧
    resolve_chart_week none db td oy om ok top = .error ⟨500, dbMissingDetail⟩ ∧
    dbMissingDetail = "DB error: " ++ "Missing SUPABASE_DB_URL env var" ∧
    health = ⟨true⟩ := by
  refine ⟨rfl, rfl, ?_, rfl, rfl⟩
  rcases hmode with ⟨h1, h2, h3, h4⟩ | ⟨h1, h2, h3, h4⟩ <;>
    simp [resolve_chart_week, truthyStr_none, h1, h2, h3, h4]

/-- Witness for `missing_db_url_500` at a concrete Mode-A request. -/
theorem missing_db_url_500_witness :
    list_weeks none demoDB 1985 60 0 = .error ⟨500, dbMissingDetail⟩ ∧
    get_week none demoDB "1985-03-02" 5 = .error ⟨500, dbMissingDetail⟩ ∧
    resolve_chart_week none demoDB (some "1985-03-05") none none none 5 =
      .error ⟨500, dbMissingDetail⟩ ∧
    dbMissingDetail = "DB error: " ++ "Missing SUPABASE_DB_URL env var" ∧
    health = ⟨true⟩ :=
  missing_db_url_500 demoDB 1985 60 0 "1985-03-02" 5 (some "1985-03-05") none none none
    (Or.inl ⟨by decide, rfl, rfl, rfl⟩)

/-! ### Claim C5 -/

/-- Claim C5 as stated is refuted: `get_week` performs no validation of
`week_end_date`; the malformed string `"not-a-date"` reaches the `%s::date`
cast inside the query and the request fails with a 500 database error — not
with a 400-class validation error as the claim requires. -/
theorem get_week_malformed_date_counterexample :
    get_week (some "postgres://demo") demoDB "not-a-date" 5 =
      .error ⟨500, dateCastDetail "not-a-date"⟩ ∧ (500 : Nat) ≠ 400 :=
  ⟨rfl, by decide⟩

/-- Claim C5 (amended): `get_week` does not validate `week_end_date` before
the database; for every input string that is not a well-formed date, the
request fails with a 500-class `DB error` produced by the failing `::date`
cast inside the query, not with a 400-class validation error. -/
theorem get_week_malformed_date_db_error (env : Option String) (db : DB) (s : String)
    (top : Nat) (henv : truthyStr env = true) (hbad : parseDate s = none) :
    get_week env db s top = .error ⟨500, dateCastDetail s⟩ := by
  simp [get_week, henv, hbad]

/-- Witness for `get_week_malformed_date_db_error`. -/
theorem get_week_malformed_date_db_error_witness :
    get_week (some "postgres://demo") demoDB "banana" 7 =
      .error ⟨500, dateCastDetail "banana"⟩ :=
  get_week_malformed_date_db_error (some "postgres://demo") demoDB "banana" 7
    (by decide) (by decide)

/-! ### Claim C4 -/

/-- Claim C4 as stated is refuted: for a well-formed `week_end_date` with no
matching row, `get_week`'s 404 detail is `"Week not found"`, which is not the
claimed message `"No chart week found for that input"`. -/
theorem get_week_notfound_message_counterexample :
    get_week (some "postgres://demo") demoDB "1990-01-05" 5 =
      .error ⟨404, "Week not found"⟩ ∧
    "Week not found" ≠ "No chart week found for that input" :=
  ⟨rfl, by decide⟩

/-- Claim C4 (amended): a well-formed `week_end_date` with no matching row
makes `get_week` fail with a 404 whose detail is `"Week not found"` (never an
empty or synthetic week object), while `resolve_chart_week`'s not-found
detail is `"No chart week found for that input"` (exercised here in Mode A
against an empty weeks table). -/
theorem notfound_error_messages (env : Option String) (db : DB) (d : String)
    (t : Date) (top : Nat) (henv : truthyStr env = true)
    (hd : parseDate d = some t)
    (hnone : ∀ w ∈ db.weeks, w.week_end_date.toDays ≠ t.toDays) :
    get_week env db d top = .error ⟨404, "Week not found"⟩ ∧
    (db.weeks = [] → d ≠ "" →
      resolve_chart_week env db (some d) none none none top =
        .error ⟨404, "No chart week found for that input"⟩) := by
  constructor
  · have hfind : findWeekByDate db.weeks t = none := by
      unfold findWeekByDate
      rw [List.head?_eq_none_iff, List.filter_eq_nil_iff]
      intro w hw
      simpa using hnone w hw
    simp [get_week, henv, hd, hfind]
  · intro hempty hne
    rw [resolve_modeA_eq env db d top henv hne, hd]
    simp [resolveByDate, hempty, orderBy]

/-- Witness for `notfound_error_messages`: `1990-01-05` matches no stored
week. -/
theorem notfound_error_messages_witness :
    get_week (some "postgres://demo") demoDB "1990-01-05" 6 =
      .error ⟨404, "Week not found"⟩ ∧
    (demoDB.weeks = [] → "1990-01-05" ≠ "" →
      resolve_chart_week (some "postgres://demo") demoDB (some "1990-01-05") none none
        none 6 = .error ⟨404, "No chart week found for that input"⟩) :=
  notfound_error_messages (some "postgres://demo") demoDB "1990-01-05" ⟨1990, 1, 5⟩ 6
    (by decide) (by decide) (by decide)

/-! ### Claim C7 -/

/-- The ordinal suffix computed by the source equals the spec's case table. -/
theorem ordinalSuffix_eq (k : Int) :
    ordinalSuffix k =
      if k = 1 then "st" else if k = 2 then "nd" else if k = 3 then "rd" else "th" := by
  simp [ordinalSuffix, beq_iff_eq]

/-- Claim C7: every successful Mode-B resolution carries
`resolution_note = "{k}{suffix} chart week of {month}/{year} (week ending
{week_end_date})"` with suffix `st`/`nd`/`rd` for 1/2/3 and `th` otherwise,
and every successful Mode-A resolution carries
`resolution_note = "Closest chart week to {target_date} (week ending
{week_end_date})"`. -/
theorem resolution_note_format (env : Option String) (db : DB) (top : Nat) :
    (∀ (y m k : Int) (resp : ResolveResp),
      resolve_chart_week env db none (some y) (some m) (some k) top = .ok resp →
      resp.resolution_note =
        toString k ++
          (if k = 1 then "st" else if k = 2 then "nd" else if k = 3 then "rd"
           else "th") ++
          " chart week of " ++ toString m ++ "/" ++ toString y ++
          " (week ending " ++ resp.week.week_end_date ++ ")") ∧
    (∀ (s : String) (resp : ResolveResp),
      resolve_chart_week env db (some s) none none none top = .ok resp →
      resp.resolution_note =
        "Closest chart week to " ++ s ++ " (week ending " ++
          resp.week.week_end_date ++ ")") := by
  constructor
  · intro y m k resp hok
    cases hy : truthyInt (some y)
    · simp [resolve_chart_week, truthyStr_none, hy] at hok
    · cases hm : truthyInt (some m)
      · simp [resolve_chart_week, truthyStr_none, hy, hm] at hok
      · cases hk : truthyInt (some k)
        · simp [resolve_chart_week, truthyStr_none, hy, hm, hk] at hok
        · cases henv : truthyStr env
          · simp [resolve_chart_week, truthyStr_none, hy, hm, hk, henv] at hok
          · have hy' : y ≠ 0 := by simpa [truthyInt_some] using hy
            have hm' : m ≠ 0 := by simpa [truthyInt_some] using hm
            have hk' : k ≠ 0 := by simpa [truthyInt_some] using hk
            rw [resolve_modeB_eq env db y m k top henv hy' hm' hk'] at hok
            cases hr : resolveByWeekInMonth db.weeks y m k
            · rw [hr] at hok; cases hok
            · rw [hr] at hok
              obtain rfl := Except.ok.inj hok
              rw [← ordinalSuffix_eq]
              rfl
  · intro s resp hok
    cases hs : truthyStr (some s)
    · simp [resolve_chart_week, truthyInt_none, hs] at hok
    · cases henv : truthyStr env
      · simp [resolve_chart_week, truthyInt_none, hs, henv] at hok
      · have hs' : s ≠ "" := by simpa [truthyStr_some] using hs
        rw [resolve_modeA_eq env db s top henv hs'] at hok
        cases hp : parseDate s with
        | none => simp [hp] at hok
        | some t =>
          cases hr : resolveByDate db.weeks t with
          | none => simp [hp, hr] at hok
          | some w =>
            simp only [hp, hr, Except.ok.injEq] at hok
            subst hok
            rfl

/-- Witness for `resolution_note_format`: concrete Mode-B and Mode-A
resolutions against `demoDB`. -/
theorem resolution_note_format_witness :
    (demoRespB.resolution_note =
      toString (2 : Int) ++
        (if (2 : Int) = 1 then "st" else if (2 : Int) = 2 then "nd"
         else if (2 : Int) = 3 then "rd" else "th") ++
        " chart week of " ++ toString (3 : Int) ++ "/" ++ toString (1985 : Int) ++
        " (week ending " ++ demoRespB.week.week_end_date ++ ")") ∧
    (demoRespA.resolution_note =
      "Closest chart week to " ++ "1985-03-05" ++ " (week ending " ++
        demoRespA.week.week_end_date ++ ")") :=
  ⟨(resolution_note_format (some "postgres://demo") demoDB 5).1 1985 3 2 demoRespB
      (by decide),
   (resolution_note_format (some "postgres://demo") demoDB 5).2 "1985-03-05" demoRespA
      (by decide)⟩

/-! ### Claim C1 -/

/-- Claim C1: for every target date and non-empty stored weeks table, Mode A
returns a week whose `week_end_date` minimizes the absolute day-distance to
the target over all stored weeks; and under the at-most-one-row-per-date
invariant, a target equal to a stored `week_end_date` resolves to exactly
that week, at distance zero. -/
theorem resolve_modeA_nearest (env : Option String) (db : DB) (s : String) (t : Date)
    (top : Nat) (henv : truthyStr env = true) (hs : s ≠ "")
    (hp : parseDate s = some t) (hne : db.weeks ≠ []) :
    ∃ w, resolve_chart_week env db (some s) none none none top =
        .ok ⟨.byDate s,
          "Closest chart week to " ++ s ++ " (week ending " ++
            w.week_end_date.isoformat ++ ")",
          weekJson w, (entriesQuery db.entries w.id top).map entryJson⟩ ∧
      w ∈ db.weeks ∧
      (∀ w2 ∈ db.weeks,
        (w.week_end_date.toDays - t.toDays).natAbs ≤
          (w2.week_end_date.toDays - t.toDays).natAbs) ∧
      ((∀ w1 ∈ db.weeks, ∀ w2 ∈ db.weeks,
          w1.week_end_date.toDays = w2.week_end_date.toDays → w1 = w2) →
        ∀ w0 ∈ db.weeks, w0.week_end_date.toDays = t.toDays →
          w = w0 ∧ (w.week_end_date.toDays - t.toDays).natAbs = 0) := by
  cases hr : resolveByDate db.weeks t with
  | none => exact absurd (orderBy_head_none db.weeks hr) hne
  | some w =>
    have hmin := orderBy_head_min
      (decideLe_total (fun x : ChartWeek => (x.week_end_date.toDays - t.toDays).natAbs))
      (decideLe_trans (fun x : ChartWeek => (x.week_end_date.toDays - t.toDays).natAbs))
      db.weeks w hr
    have hmem := hmin.1
    have hminle : ∀ w2 ∈ db.weeks,
        (w.week_end_date.toDays - t.toDays).natAbs ≤
          (w2.week_end_date.toDays - t.toDays).natAbs :=
      fun w2 hw2 => of_decide_eq_true (hmin.2 w2 hw2)
    refine ⟨w, ?_, hmem, hminle, ?_⟩
    · rw [resolve_modeA_eq env db s top henv hs]
      simp only [hp, hr]
    · intro huniq w0 hw0 ht0
      have h0 : (w0.week_end_date.toDays - t.toDays).natAbs = 0 := by omega
      have hw0min := hminle w0 hw0
      have hzero : (w.week_end_date.toDays - t.toDays).natAbs = 0 := by omega
      have hwt : w.week_end_date.toDays = t.toDays := by omega
      exact ⟨huniq w hmem w0 hw0 (by omega), hzero⟩

/-- Witness for `resolve_modeA_nearest`: target `1985-03-05` against
`demoDB`. -/
theorem resolve_modeA_nearest_witness :
    ∃ w, resolve_chart_week (some "postgres://demo") demoDB (some "1985-03-05") none
        none none 5 =
        .ok ⟨.byDate "1985-03-05",
          "Closest chart week to " ++ "1985-03-05" ++ " (week ending " ++
            w.week_end_date.isoformat ++ ")",
          weekJson w, (entriesQuery demoDB.entries w.id 5).map entryJson⟩ ∧
      w ∈ demoDB.weeks ∧
      (∀ w2 ∈ demoDB.weeks,
        (w.week_end_date.toDays - (⟨1985, 3, 5⟩ : Date).toDays).natAbs ≤
          (w2.week_end_date.toDays - (⟨1985, 3, 5⟩ : Date).toDays).natAbs) ∧
      ((∀ w1 ∈ demoDB.weeks, ∀ w2 ∈ demoDB.weeks,
          w1.week_end_date.toDays = w2.week_end_date.toDays → w1 = w2) →
        ∀ w0 ∈ demoDB.weeks, w0.week_end_date.toDays = (⟨1985, 3, 5⟩ : Date).toDays →
          w = w0 ∧ (w.week_end_date.toDays - (⟨1985, 3, 5⟩ : Date).toDays).natAbs = 0) :=
  resolve_modeA_nearest (some "postgres://demo") demoDB "1985-03-05" ⟨1985, 3, 5⟩ 5
    (by decide) (by decide) (by decide) (by decide)

/-! ### Claim C2 -/

/-- Claim C2: Mode B returns the `week_in_month`-th earliest (1-indexed,
ascending by `week_end_date`) stored week whose `year` column equals `year`
and whose `week_end_date` falls in calendar month `month`; when fewer than
`week_in_month` such weeks exist the result is the 404 not-found condition
and no other error.  The list `L` below is an ascending-sorted permutation of
the matching rows and the handler returns exactly its `(k-1)`-th element. -/
theorem resolve_modeB_kth (env : Option String) (db : DB) (y m k : Int) (top : Nat)
    (henv : truthyStr env = true)
    (hy : 1955 ≤ y ∧ y ≤ 2019) (hm : 1 ≤ m ∧ m ≤ 12) (hk : 1 ≤ k ∧ k ≤ 6) :
    ∃ L : List ChartWeek,
      L.Perm (db.weeks.filter
        (fun w => w.year == y && ((w.week_end_date.month : Int) == m))) ∧
      L.Pairwise (fun a b => a.week_end_date.toDays ≤ b.week_end_date.toDays) ∧
      (∀ w, L[(k - 1).toNat]? = some w →
        resolve_chart_week env db none (some y) (some m) (some k) top =
          .ok ⟨.byWeekInMonth y m k,
            toString k ++ ordinalSuffix k ++ " chart week of " ++ toString m ++ "/" ++
              toString y ++ " (week ending " ++ w.week_end_date.isoformat ++ ")",
            weekJson w, (entriesQuery db.entries w.id top).map entryJson⟩) ∧
      (L[(k - 1).toNat]? = none →
        resolve_chart_week env db none (some y) (some m) (some k) top =
          .error ⟨404, "No chart week found for that input"⟩) ∧
      (L[(k - 1).toNat]? = none ↔
        ((db.weeks.filter
          (fun w => w.year == y && ((w.week_end_date.month : Int) == m))).length : Int)
          < k) := by
  obtain ⟨hk1, hk2⟩ := hk
  have hy' : y ≠ 0 := by omega
  have hm' : m ≠ 0 := by omega
  have hk' : k ≠ 0 := by omega
  refine ⟨orderBy (fun a b => decide (a.week_end_date.toDays ≤ b.week_end_date.toDays))
      (db.weeks.filter
        (fun w => w.year == y && ((w.week_end_date.month : Int) == m))),
    orderBy_perm _ _, ?_, ?_, ?_, ?_⟩
  · exact (pairwise_orderBy (decideLe_total (fun w : ChartWeek => w.week_end_date.toDays))
      (decideLe_trans (fun w : ChartWeek => w.week_end_date.toDays)) _).imp
      (fun h => of_decide_eq_true h)
  · intro w hw
    rw [resolve_modeB_eq env db y m k top henv hy' hm' hk']
    have hres : resolveByWeekInMonth db.weeks y m k = some w := by
      unfold resolveByWeekInMonth
      rw [List.head?_drop]
      exact hw
    rw [hres]
  · intro hnone
    rw [resolve_modeB_eq env db y m k top henv hy' hm' hk']
    have hres : resolveByWeekInMonth db.weeks y m k = none := by
      unfold resolveByWeekInMonth
      rw [List.head?_drop]
      exact hnone
    rw [hres]
  · rw [List.getElem?_eq_none_iff,
      (orderBy_perm (fun a b => decide (a.week_end_date.toDays ≤ b.week_end_date.toDays))
        (db.weeks.filter
          (fun w => w.year == y && ((w.week_end_date.month : Int) == m)))).length_eq]
    omega

/-- Witness for `resolve_modeB_kth`: the second chart week of March 1985 in
`demoDB`. -/
theorem resolve_modeB_kth_witness :
    ∃ L : List ChartWeek,
      L.Perm (demoDB.weeks.filter
        (fun w => w.year == (1985 : Int) &&
          ((w.week_end_date.month : Int) == (3 : Int)))) ∧
      L.Pairwise (fun a b => a.week_end_date.toDays ≤ b.week_end_date.toDays) ∧
      (∀ w, L[((2 : Int) - 1).toNat]? = some w →
        resolve_chart_week (some "postgres://demo") demoDB none (some 1985) (some 3)
            (some 2) 5 =
          .ok ⟨.byWeekInMonth 1985 3 2,
            toString (2 : Int) ++ ordinalSuffix 2 ++ " chart week of " ++
              toString (3 : Int) ++ "/" ++ toString (1985 : Int) ++
              " (week ending " ++ w.week_end_date.isoformat ++ ")",
            weekJson w, (entriesQuery demoDB.entries w.id 5).map entryJson⟩) ∧
      (L[((2 : Int) - 1).toNat]? = none →
        resolve_chart_week (some "postgres://demo") demoDB none (some 1985) (some 3)
            (some 2) 5 =
          .error ⟨404, "No chart week found for that input"⟩) ∧
      (L[((2 : Int) - 1).toNat]? = none ↔
        ((demoDB.weeks.filter
          (fun w => w.year == (1985 : Int) &&
            ((w.week_end_date.month : Int) == (3 : Int)))).length : Int) < 2) :=
  resolve_modeB_kth (some "postgres://demo") demoDB 1985 3 2 5 (by decide)
    (by omega) (by omega) (by omega)

/-! ### Claim C6 -/

/-- Claim C6: `/charts/weeks` returns exactly the stored weeks whose `year`
equals the parameter, in descending `week_end_date` order, skipping the first
`offset` matches and returning at most `limit` rows; zero matches yield an
empty list, never an error.  The list `L` is a descending-sorted permutation
of the matching rows and the handler returns `(L.drop offset).take limit`. -/
theorem list_weeks_spec (env : Option String) (db : DB) (y : Int)
    (limit offset : Nat) (henv : truthyStr env = true)
    (hy : 1955 ≤ y ∧ y ≤ 2019) (hl : 1 ≤ limit ∧ limit ≤ 200) :
    ∃ L : List ChartWeek,
      L.Perm (db.weeks.filter (fun w => w.year == y)) ∧
      L.Pairwise (fun a b => b.week_end_date.toDays ≤ a.week_end_date.toDays) ∧
      list_weeks env db y limit offset =
        .ok (((L.drop offset).take limit).map weekJson) ∧
      (∀ w ∈ (L.drop offset).take limit, w ∈ db.weeks ∧ w.year = y) ∧
      ((L.drop offset).take limit).length ≤ limit ∧
      (db.weeks.filter (fun w => w.year == y) = [] →
        list_weeks env db y limit offset = .ok []) := by
  refine ⟨orderBy (fun a b => decide (b.week_end_date.toDays ≤ a.week_end_date.toDays))
      (db.weeks.filter (fun w => w.year == y)),
    orderBy_perm _ _, ?_, ?_, ?_, ?_, ?_⟩
  · refine (pairwise_orderBy ?_ ?_ _).imp (fun h => of_decide_eq_true h)
    · exact fun a b => decideLe_total (fun w : ChartWeek => w.week_end_date.toDays) b a
    · exact fun a b c h1 h2 =>
        decideLe_trans (fun w : ChartWeek => w.week_end_date.toDays) c b a h2 h1
  · simp [list_weeks, henv, listWeeksQuery]
  · intro w hw
    have hw1 : w ∈ orderBy
        (fun a b => decide (b.week_end_date.toDays ≤ a.week_end_date.toDays))
        (db.weeks.filter (fun w => w.year == y)) :=
      List.drop_subset _ _ (List.take_subset _ _ hw)
    have hw2 : w ∈ db.weeks.filter (fun w => w.year == y) :=
      (orderBy_perm _ _).subset hw1
    have hw3 := List.mem_filter.mp hw2
    exact ⟨hw3.1, by simpa using hw3.2⟩
  · exact List.length_take_le _ _
  · intro h
    simp [list_weeks, henv, listWeeksQuery, h, orderBy]

/-- Witness for `list_weeks_spec`: the 1985 weeks of `demoDB` with
`limit = 2`, `offset = 1`. -/
theorem list_weeks_spec_witness :
    ∃ L : List ChartWeek,
      L.Perm (demoDB.weeks.filter (fun w => w.year == (1985 : Int))) ∧
      L.Pairwise (fun a b => b.week_end_date.toDays ≤ a.week_end_date.toDays) ∧
      list_weeks (some "postgres://demo") demoDB 1985 2 1 =
        .ok (((L.drop 1).take 2).map weekJson) ∧
      (∀ w ∈ (L.drop 1).take 2, w ∈ demoDB.weeks ∧ w.year = 1985) ∧
      ((L.drop 1).take 2).length ≤ 2 ∧
      (demoDB.weeks.filter (fun w => w.year == (1985 : Int)) = [] →
        list_weeks (some "postgres://demo") demoDB 1985 2 1 = .ok []) :=
  list_weeks_spec (some "postgres://demo") demoDB 1985 2 1 (by decide)
    (by omega) (by omega)

/-! ### Claim C8 -/

theorem filtered_positions_ne (entries : List ChartEntry) (wid : Nat)
    (hu : entries.Pairwise
      (fun a b => a.chart_week_id = b.chart_week_id → a.position ≠ b.position)) :
    (entries.filter (fun e => e.chart_week_id == wid)).Pairwise
      (fun a b => a.position ≠ b.position) := by
  refine (hu.filter (fun e => e.chart_week_id == wid)).imp_of_mem ?_
  intro a b ha hb hab
  have ha' : a.chart_week_id = wid := by simpa using (List.mem_filter.mp ha).2
  have hb' : b.chart_week_id = wid := by simpa using (List.mem_filter.mp hb).2
  exact hab (ha'.trans hb'.symm)

theorem entriesQuery_sorted_bounded (entries : List ChartEntry) (wid top : Nat)
    (hu : entries.Pairwise
      (fun a b => a.chart_week_id = b.chart_week_id → a.position ≠ b.position)) :
    (entriesQuery entries wid top).Pairwise (fun a b => a.position < b.position) ∧
    (entriesQuery entries wid top).length ≤ top := by
  constructor
  · have hle : (orderBy (fun a b : ChartEntry => decide (a.position ≤ b.position))
        (entries.filter (fun e => e.chart_week_id == wid))).Pairwise
          (fun a b => a.position ≤ b.position) :=
      (pairwise_orderBy (decideLe_total (fun e : ChartEntry => e.position))
        (decideLe_trans (fun e : ChartEntry => e.position)) _).imp
        (fun h => of_decide_eq_true h)
    have hne : (orderBy (fun a b : ChartEntry => decide (a.position ≤ b.position))
        (entries.filter (fun e => e.chart_week_id == wid))).Pairwise
          (fun a b => a.position ≠ b.position) :=
      ((orderBy_perm _ _).pairwise_iff (fun h => Ne.symm h)).mpr
        (filtered_positions_ne entries wid hu)
    exact List.Pairwise.sublist (List.take_sublist _ _)
      ((hle.and hne).imp (fun h => lt_of_le_of_ne h.1 h.2))
  · exact List.length_take_le _ _

/-- Claim C8: under the invariant that `position` values are unique within
one week, the entries array of every successful `/charts/week` response and
every successful `/charts/resolve` response is sorted strictly ascending by
`position` and has length at most `top`. -/
theorem entries_sorted_bounded (env : Option String) (db : DB) (top : Nat)
    (hu : db.entries.Pairwise
      (fun a b => a.chart_week_id = b.chart_week_id → a.position ≠ b.position)) :
    (∀ (d : String) (resp : GetWeekResp), get_week env db d top = .ok resp →
      resp.entries.Pairwise (fun a b => a.position < b.position) ∧
      resp.entries.length ≤ top) ∧
    (∀ (td : Option String) (oy om ow : Option Int) (resp : ResolveResp),
      resolve_chart_week env db td oy om ow top = .ok resp →
      resp.entries.Pairwise (fun a b => a.position < b.position) ∧
      resp.entries.length ≤ top) := by
  have key : ∀ wid : Nat,
      ((entriesQuery db.entries wid top).map entryJson).Pairwise
        (fun a b => a.position < b.position) ∧
      ((entriesQuery db.entries wid top).map entryJson).length ≤ top := by
    intro wid
    obtain ⟨h1, h2⟩ := entriesQuery_sorted_bounded db.entries wid top hu
    exact ⟨h1.map entryJson (fun a b h => h), by simpa using h2⟩
  constructor
  · intro d resp hok
    cases henv : truthyStr env
    · simp [get_week, henv] at hok
    · rw [get_week_eq env db d top henv] at hok
      cases hp : parseDate d with
      | none => simp [hp] at hok
      | some t =>
        cases hf : findWeekByDate db.weeks t with
        | none => simp [hp, hf] at hok
        | some w =>
          simp only [hp, hf, Except.ok.injEq] at hok
          subst hok
          exact key w.id
  · intro td oy om ow resp hok
    cases htd : truthyStr td
    · cases hy : truthyInt oy
      · simp [resolve_chart_week, htd, hy] at hok
      · cases hm : truthyInt om
        · simp [resolve_chart_week, htd, hy, hm] at hok
        · cases hw : truthyInt ow
          · simp [resolve_chart_week, htd, hy, hm, hw] at hok
          · cases henv : truthyStr env
            · simp [resolve_chart_week, htd, hy, hm, hw, henv] at hok
            · rw [resolve_modeB_eqGen env db td oy om ow top henv htd hy hm hw] at hok
              cases hr : resolveByWeekInMonth db.weeks (oy.getD 0) (om.getD 0)
                  (ow.getD 0) with
              | none => rw [hr] at hok; cases hok
              | some w =>
                rw [hr] at hok
                obtain rfl := Except.ok.inj hok
                exact key w.id
    · cases hy : truthyInt oy
      · cases hm : truthyInt om
        · cases hw : truthyInt ow
          · cases henv : truthyStr env
            · simp [resolve_chart_week, htd, hy, hm, hw, henv] at hok
            · rw [resolve_modeA_eqGen env db td oy om ow top henv htd hy hm hw] at hok
              cases hp : parseDate (td.getD "") with
              | none => simp [hp] at hok
              | some t =>
                cases hr : resolveByDate db.weeks t with
                | none => simp [hp, hr] at hok
                | some w =>
                  simp only [hp, hr, Except.ok.injEq] at hok
                  subst hok
                  exact key w.id
          · simp [resolve_chart_week, htd, hy, hm, hw] at hok
        · simp [resolve_chart_week, htd, hy, hm] at hok
      · simp [resolve_chart_week, htd, hy] at hok

/-- Witness for `entries_sorted_bounded`: `demoDB` satisfies the
position-uniqueness invariant. -/
theorem entries_sorted_bounded_witness :
    (∀ (d : String) (resp : GetWeekResp),
      get_week (some "postgres://demo") demoDB d 5 = .ok resp →
      resp.entries.Pairwise (fun a b => a.position < b.position) ∧
      resp.entries.length ≤ 5) ∧
    (∀ (td : Option String) (oy om ow : Option Int) (resp : ResolveResp),
      resolve_chart_week (some "postgres://demo") demoDB td oy om ow 5 = .ok resp →
      resp.entries.Pairwise (fun a b => a.position < b.position) ∧
      resp.entries.length ≤ 5) :=
  entries_sorted_bounded (some "postgres://demo") demoDB 5 (by decide)

end CountdownPro
